import Mathlib

/-!
Shallow embedding of the SalesResearch repository core:

* `research_agent/gemini_api.py` — the long-running job client
  (`call_gemini_deep_research`) and the fast-reasoning call
  (`generate_business_model_canvas`),
* `main.py` — the human approval loop,
* `research_agent/agent.py` — the gated research tool with document export.

Machine-level effects (HTTP, sleeping, stdin/stdout) are modelled by passing
in the external world's behaviour explicitly: the service's response to the
start request, its response to each numbered poll, the user's successive
input lines, and the document-export collaborators' results.  Python
exceptions raised by a collaborator appear as explicit `exn` / `Except.error`
branches of those behaviours; every code path of the Python source maps to
one branch of the Lean definition.
-/

namespace SalesResearch

/-- A JSON value as far as the client inspects it: the `output` field of a
poll response can be absent (modelled by the Python default `""`), a string,
a list, or JSON `null`.  The client never looks inside list elements, so
they are carried as opaque rendered strings.  Truthiness mirrors Python. -/
inductive Json where
  | null : Json
  | str : String → Json
  | arr : List String → Json
deriving DecidableEq, Repr

/-- Python truthiness of a `Json` value (`if output:` in the source). -/
def Json.truthy : Json → Bool
  | .null => false
  | .str s => !(s.isEmpty)
  | .arr xs => !(xs.isEmpty)

/-- Behaviour of the external service on the single start request
(`session.post(f"{GEMINI_API_BASE}/interactions", ...)`): either the request
raises an exception, or a response arrives with an HTTP status, a body text
(read only when the status is not 200), the parsed `id` field (`none` when
absent), and an opaque rendering `raw` of the full parsed JSON (used in the
missing-id error message, mirroring Python `str(result)`). -/
inductive StartResponse where
  | exn (msg : String)
  | resp (status : Nat) (body : String) (ident : Option String) (raw : String)
deriving DecidableEq, Repr

/-- Behaviour of the external service on one poll
(`session.get(f"{GEMINI_API_BASE}/interactions/{interaction_id}")`):
an exception, or a response with HTTP status, body text, and the parsed
fields with the source's `.get` defaults already applied:
`state = result.get("state", "")`, `output = result.get("output", "")`
(so an absent field is `Json.str ""`), `error = result.get("error",
"Unknown error")`; `raw` renders the full parsed JSON. -/
inductive PollResponse where
  | exn (msg : String)
  | resp (status : Nat) (body : String) (state : String)
      (output : Json) (error : String) (raw : String)
deriving DecidableEq, Repr

/-- The external world a single `call_gemini_deep_research` run interacts
with: the `GEMINI_API_KEY` environment variable (`none` when unset), the
start response, and the response to the `n`-th poll attempt. -/
structure Service where
  apiKey : Option String
  start : StartResponse
  poll : Nat → PollResponse

/-- Python falsiness of `GEMINI_API_KEY` (`if not GEMINI_API_KEY:`):
unset or the empty string. -/
def keyMissing : Option String → Bool
  | none => true
  | some s => s.isEmpty

/-- Python falsiness of the extracted `id` (`if not interaction_id:`). -/
def identMissing : Option String → Bool
  | none => true
  | some s => s.isEmpty

/-- `max_attempts = 60` in the source. -/
def maxAttempts : Nat := 60

/-- `poll_interval = 5` (seconds) in the source. -/
def pollInterval : Nat := 5

/-- Outcome of a run, classifying each `return` of the Python function:
`success` carries the value returned on the `COMPLETED`-with-truthy-output
path (the whole `output` field), `failure` and `timeout` carry the exact
message string built by the source. -/
inductive JobOutcome where
  | success (payload : Json)
  | failure (reason : String)
  | timeout (msg : String)
deriving DecidableEq, Repr

/-- The message of the final `return` of the polling loop. -/
def timeoutMsg : String :=
  "Research timed out after " ++ toString (maxAttempts * pollInterval) ++
    " seconds. The research may still be processing."

/-- One iteration of the polling loop body: `some outcome` when the branch
returns from the function, `none` when the loop continues
("Still processing, continue polling"). -/
def pollStep : PollResponse → Option JobOutcome
  | .exn msg => some (.failure ("Error polling Gemini API: " ++ msg))
  | .resp status body state output error raw =>
    if status ≠ 200 then
      some (.failure ("Error polling results: " ++ toString status ++ " - " ++ body))
    else if state = "COMPLETED" then
      if output.truthy then
        some (.success output)
      else
        some (.failure ("Research completed but no output found. Full response: " ++ raw))
    else if state = "FAILED" ∨ state = "CANCELLED" then
      some (.failure ("Research " ++ state.toLower ++ ": " ++ error))
    else
      none

/-- The `for attempt in range(max_attempts)` loop.  `fuel` is the number of
remaining attempts, `attempt` the index of the next poll, `clock` the elapsed
time so far.  Each iteration first sleeps `pollInterval` time units, then
polls; the returned list records the instant of every poll performed, so its
length is the number of polls and consecutive entries differ by
`pollInterval`. -/
def pollLoop (svc : Service) : Nat → Nat → Nat → JobOutcome × List Nat
  | 0, _, _ => (.timeout timeoutMsg, [])
  | fuel + 1, attempt, clock =>
    let t := clock + pollInterval
    match pollStep (svc.poll attempt) with
    | some o => (o, [t])
    | none =>
      let r := pollLoop svc fuel (attempt + 1) t
      (r.1, t :: r.2)

/-- Embedding of `call_gemini_deep_research(prompt)`.  Besides the outcome it
returns the list of instants at which a poll request was issued (empty when
the run ends before polling). -/
def call_gemini_deep_research (svc : Service) (prompt : String) :
    JobOutcome × List Nat :=
  if keyMissing svc.apiKey then
    (.failure "Error: GEMINI_API_KEY not set in environment variables", [])
  else
    match svc.start with
    | .exn msg => (.failure ("Error calling Gemini API: " ++ msg), [])
    | .resp status body ident raw =>
      if status ≠ 200 then
        (.failure ("Error starting research: " ++ toString status ++ " - " ++ body), [])
      else if identMissing ident then
        (.failure ("Error: No interaction ID returned from API. Response: " ++ raw), [])
      else
        pollLoop svc maxAttempts 0 0

/-! ## `main.py` — the approval loop -/

/-- The argument payload of a pending tool invocation, as seen by the
approval loop: either `json.loads(...)` / attribute access raises (any
exception, caught by the bare `except:`), or it yields a mapping whose
`company_name` / `company_url` keys may each be absent. -/
inductive ArgPayload where
  | malformed
  | parsed (companyName companyUrl : Option String)
deriving DecidableEq, Repr

/-- An approval request emitted by the agent for a gated tool call. -/
structure ApprovalRequest where
  args : ArgPayload
deriving DecidableEq, Repr

/-- The `try`/`except` block of `main`: extract `(company_name, company_url)`
with `"Unknown"` as the `.get` default and as the fallback of the bare
`except:`. -/
def extractCompany : ArgPayload → String × String
  | .malformed => ("Unknown", "Unknown")
  | .parsed n u => (n.getD "Unknown", u.getD "Unknown")

/-- The `"="*60` separator line printed around the approval banner. -/
def sepLine : String := String.mk (List.replicate 60 '=')

/-- The lines `main` prints to present an approval request to the user
(the `print` block between the two `try` blocks); printed unconditionally,
after the argument extraction has already degraded to placeholders. -/
def requestBanner (req : ApprovalRequest) : List String :=
  let nameUrl := extractCompany req.args
  [sepLine,
   "           Deep Research Requested",
   sepLine,
   "Company:     " ++ nameUrl.1,
   "Company URL: " ++ nameUrl.2,
   sepLine]

/-- What the loop does with one (already `.strip()`-ed via `trim`) user input
line: `abort` on empty input or case-insensitive `quit` (the early `return`),
otherwise the text is fed back to the agent as a user message. -/
inductive StepAction where
  | abort
  | feedback (text : String)
deriving DecidableEq, Repr

/-- Python `str.lower()` on the character sequence (ASCII case mapping, the
range the decision below ever compares against). -/
def pyLower (s : String) : String :=
  ⟨s.data.map Char.toLower⟩

/-- Python `str.strip()` on the character sequence: drop whitespace from both
ends. -/
def pyStrip (s : String) : String :=
  ⟨((s.data.dropWhile Char.isWhitespace).reverse.dropWhile
      Char.isWhitespace).reverse⟩

/-- The decision mapping of `main`: `user_response = input(...).strip()`;
`if not user_response or user_response.lower() == 'quit': return`. -/
def approvalStep (rawInput : String) : StepAction :=
  let r := pyStrip rawInput
  if r = "" ∨ pyLower r = "quit" then .abort else .feedback r

/-- The result of one `agent.run(...)` call, as far as `main` inspects it:
the list of pending user-input (approval) requests and the response text. -/
structure AgentResult where
  userInputRequests : List ApprovalRequest
  text : String

/-- How a modelled session ends.  `aborted` is the early `return` on
empty/`quit` input; `finished` is the `return` taken right after an
`agent.run` that came back with no further approval requests; `noRequests`
is falling out of the `while` loop; `stuck` marks runs the finite model
cannot follow (out of fuel, or the user supplies no further input line). -/
inductive SessionOutcome where
  | aborted
  | finished (finalText : String)
  | noRequests (text : String)
  | stuck
deriving DecidableEq, Repr

/-- The `while result.user_input_requests:` / `for user_input_needed in
result.user_input_requests:` nest of `main`, given the agent's behaviour as
a function from the fed-back user text to the next `AgentResult` and the
user's successive input lines.  The second component counts the
`agent.run(response_message)` calls performed — the only path by which the
gated tool can execute.  The `for` iterates over the request list snapshot
(`reqs`) while `result` is reassigned inside it, exactly as in Python; when
the snapshot is exhausted the `while` condition re-checks the current
`result`. -/
def sessionLoop (agentRun : String → AgentResult) :
    Nat → List String → List ApprovalRequest → AgentResult →
      SessionOutcome × Nat
  | 0, _, _, _ => (.stuck, 0)
  | fuel + 1, inputs, [], result =>
    if result.userInputRequests.isEmpty then
      (.noRequests result.text, 0)
    else
      sessionLoop agentRun fuel inputs result.userInputRequests result
  | fuel + 1, inputs, _req :: rest, result =>
    match inputs with
    | [] => (.stuck, 0)
    | inp :: inputs' =>
      match approvalStep inp with
      | .abort => (.aborted, 0)
      | .feedback fb =>
        let result' := agentRun fb
        if result'.userInputRequests.isEmpty then
          (.finished result'.text, 1)
        else
          let r := sessionLoop agentRun fuel inputs' rest result'
          (r.1, r.2 + 1)

/-! ## `research_agent/agent.py` — the gated research tool -/

/-- Embedding of the body of `gemini_deep_research` in
`research_agent/agent.py` from the point where the research result is in
hand.  External collaborators are passed in as their observed behaviour:
`promptFile` is the content of `Prompts/DeepResearch.txt` (`none` when
opening raises `FileNotFoundError`), `research` the string returned by
`call_gemini_deep_research`, and `pdfSave` / `bmcGen` / `docxSave` the
result of `save_research_pdf`, `analyze_with_gemini` and
`save_business_model_canvas_docx` (`Except.error e` when the call raises an
exception with text `e`, caught by the single `except Exception` of the
`try` block; `Except.ok` carries the saved file's name, resp. the generated
canvas text). -/
def gemini_deep_research (promptPath : String) (promptFile : Option String)
    (research : String) (pdfSave : Except String String)
    (bmcGen : Except String String) (docxSave : Except String String) :
    String :=
  match promptFile with
  | none => "Error: Could not find prompt file at " ++ promptPath
  | some _ =>
    match pdfSave with
    | .error e => research ++ "\n\n---\n\n⚠️ Error saving files: " ++ e
    | .ok pdfName =>
      match bmcGen with
      | .error e => research ++ "\n\n---\n\n⚠️ Error saving files: " ++ e
      | .ok _ =>
        match docxSave with
        | .error e => research ++ "\n\n---\n\n⚠️ Error saving files: " ++ e
        | .ok docxName =>
          research ++ "\n\n---\n\n✅ Research: " ++ pdfName ++
            "\n✅ Business Model Canvas: " ++ docxName

/-! ## `gemini_api.py` — the fast-reasoning call
(`generate_business_model_canvas`) -/

/-- One content part of a candidate: its `text` field may be absent
(`parts[0].get("text", "No text generated")`). -/
structure Part where
  text : Option String
deriving DecidableEq, Repr

/-- One candidate, with the `.get` defaults of the source already applied:
`content = candidates[0].get("content", {})`, `parts = content.get("parts",
[])`, so a candidate with no `content` has `parts = []`. -/
structure Candidate where
  parts : List Part
deriving DecidableEq, Repr

/-- Behaviour of the fast-reasoning endpoint on the single
`models/{model}:generateContent` request: an exception, or a response with
an HTTP status, body text, the parsed `candidates` list
(`result.get("candidates", [])`), and an opaque rendering `raw` of the full
parsed JSON. -/
inductive GenResponse where
  | exn (msg : String)
  | resp (status : Nat) (body : String) (candidates : List Candidate)
      (raw : String)

/-- Outcome of `generate_business_model_canvas`, classifying each `return`:
`text` for the candidate-text path (including the `"No text generated"`
placeholder default), `failure` for every error-message return. -/
inductive BmcOutcome where
  | text (s : String)
  | failure (reason : String)
deriving DecidableEq, Repr

/-- The `bmc_prompt` f-string template of the source, as a function of the
interpolated company name and research report. -/
def bmcPrompt (companyName researchReport : String) : String :=
  "Analyze the research report on " ++ companyName ++
  ". Use your advanced reasoning skills to complete each section of the Business Model Canvas.\n\nHere is the research report:\n\n" ++
  researchReport ++
  "\n\nPlease provide a comprehensive Business Model Canvas with the following sections:\n\n1. **Customer Segments**: Who are the key customer groups?\n2. **Value Propositions**: What unique value does the company offer to each segment?\n3. **Channels**: Through what channels does the company reach and deliver value?\n4. **Customer Relationships**: What types of relationships does the company establish with customers?\n5. **Revenue Streams**: How does the company generate revenue from each customer segment?\n6. **Key Resources**: What key resources are required for the business model to work?\n7. **Key Activities**: What key activities are necessary to deliver the value proposition?\n8. **Key Partnerships**: Who are the key partners and suppliers?\n9. **Cost Structure**: What are the most important costs inherent in the business model?\n\nFormat your response as a clear, structured markdown document."

/-- Embedding of `generate_business_model_canvas(company_name,
research_report)`.  The backing service is a deterministic function from
the request prompt to its response; the function sends exactly
`bmcPrompt companyName researchReport`. -/
def generate_business_model_canvas (apiKey : Option String)
    (service : String → GenResponse) (companyName researchReport : String) :
    BmcOutcome :=
  if keyMissing apiKey then
    .failure "Error: GEMINI_API_KEY not set in environment variables"
  else
    match service (bmcPrompt companyName researchReport) with
    | .exn msg => .failure ("Error calling Gemini 2.5 Pro API: " ++ msg)
    | .resp status body candidates raw =>
      if status ≠ 200 then
        .failure ("Error calling Gemini 2.5 Pro: " ++ toString status ++ " - " ++ body)
      else
        match candidates with
        | [] => .failure ("Error: Unexpected response format. Response: " ++ raw)
        | c :: _ =>
          match c.parts with
          | [] => .failure ("Error: Unexpected response format. Response: " ++ raw)
          | p :: _ => .text (p.text.getD "No text generated")

/-! ## Polling-loop lemmas -/

/-- If the first `k` polls leave the loop running and the `k`-th poll makes
the loop body return outcome `o`, the loop returns `o` after exactly `k + 1`
polls. -/
theorem pollLoop_stops (svc : Service) (o : JobOutcome) :
    ∀ (k fuel attempt clock : Nat), k < fuel →
      (∀ i, i < k → pollStep (svc.poll (attempt + i)) = none) →
      pollStep (svc.poll (attempt + k)) = some o →
      (pollLoop svc fuel attempt clock).1 = o ∧
      (pollLoop svc fuel attempt clock).2.length = k + 1 := by
  intro k
  induction k with
  | zero =>
    intro fuel attempt clock hlt _ hstep
    match fuel, hlt with
    | fuel + 1, _ =>
      simp only [Nat.add_zero] at hstep
      simp [pollLoop, hstep]
  | succ k ih =>
    intro fuel attempt clock hlt hnone hstep
    match fuel, hlt with
    | fuel + 1, hlt =>
      have h0 : pollStep (svc.poll attempt) = none := by
        simpa using hnone 0 (Nat.succ_pos k)
      have hrec := ih fuel (attempt + 1) (clock + pollInterval)
        (by omega)
        (fun i hi => by
          have h := hnone (i + 1) (by omega)
          rw [show attempt + 1 + i = attempt + (i + 1) from by omega]
          exact h)
        (by
          rw [show attempt + 1 + k = attempt + (k + 1) from by omega]
          exact hstep)
      simp only [pollLoop, h0]
      exact ⟨hrec.1, by simp [hrec.2]⟩

/-- If every poll in the budget leaves the loop running, the loop times out
after performing one poll per unit of fuel, each `pollInterval` after the
previous one. -/
theorem pollLoop_exhausts (svc : Service) :
    ∀ (fuel attempt clock : Nat),
      (∀ i, i < fuel → pollStep (svc.poll (attempt + i)) = none) →
      pollLoop svc fuel attempt clock =
        (.timeout timeoutMsg,
         (List.range fuel).map (fun i => clock + pollInterval * (i + 1))) := by
  intro fuel
  induction fuel with
  | zero =>
    intro attempt clock _
    simp [pollLoop]
  | succ fuel ih =>
    intro attempt clock hnone
    have h0 : pollStep (svc.poll attempt) = none := by
      simpa using hnone 0 (by omega)
    have hrec := ih (attempt + 1) (clock + pollInterval) (fun i hi => by
      have h := hnone (i + 1) (by omega)
      rw [show attempt + 1 + i = attempt + (i + 1) from by omega]
      exact h)
    have hmap : List.map (fun i => clock + pollInterval * (i + 1))
        (List.range (fuel + 1)) =
        (clock + pollInterval) ::
          List.map (fun i => clock + pollInterval + pollInterval * (i + 1))
            (List.range fuel) := by
      rw [List.range_succ_eq_map, List.map_cons, List.map_map]
      congr 1
      simp
      intro a _
      ring
    simp only [pollLoop, h0]
    rw [hrec, hmap]

/-- When the key is present and the start request succeeds with a usable job
identifier, `call_gemini_deep_research` is the polling loop started at
attempt 0, time 0, with the full budget. -/
theorem run_polls (svc : Service) (prompt body raw ident : String)
    (hkey : keyMissing svc.apiKey = false)
    (hstart : svc.start = .resp 200 body (some ident) raw)
    (hident : ident ≠ "") :
    call_gemini_deep_research svc prompt = pollLoop svc maxAttempts 0 0 := by
  have hid : identMissing (some ident) = false := by
    simp only [identMissing]
    exact Bool.eq_false_iff.mpr (fun h => hident ((String.isEmpty_iff ident).mp h))
  simp [call_gemini_deep_research, hkey, hstart, hid]

/-! ## Claim C1 -/

/-- A service whose job completes on the first poll with the two-element
output sequence `["a", "b"]`. -/
def svcC1 : Service where
  apiKey := some "k"
  start := .resp 200 "" (some "job-123") ""
  poll := fun _ => .resp 200 "" "COMPLETED" (.arr ["a", "b"]) "Unknown error" ""

/-- C1, counterexample: a run observing `COMPLETED` with the non-empty
output sequence `["a", "b"]` (last element `"b"`) returns Success carrying
the whole sequence, not its last element, so the claim as stated is false
at this input. -/
theorem C1_counterexample :
    svcC1.poll 0 = .resp 200 "" "COMPLETED" (.arr ["a", "b"]) "Unknown error" "" ∧
    (["a", "b"] : List String) ≠ [] ∧
    (["a", "b"] : List String).getLast? = some "b" ∧
    (call_gemini_deep_research svcC1 "p").1 = .success (.arr ["a", "b"]) ∧
    (call_gemini_deep_research svcC1 "p").1 ≠ .success (.str "b") ∧
    (call_gemini_deep_research svcC1 "p").1 ≠ .success (.arr ["b"]) := by
  decide

/-- C1, amended: for every run whose polling observes status `"COMPLETED"`,
the result is Success carrying the job's entire output value when that value
is non-empty (truthy), and a Failure — never Success — when the output is
empty. -/
theorem C1_completed (svc : Service)
    (prompt body raw ident pbody perr praw : String) (output : Json) (k : Nat)
    (hkey : keyMissing svc.apiKey = false)
    (hstart : svc.start = .resp 200 body (some ident) raw)
    (hident : ident ≠ "")
    (hk : k < maxAttempts)
    (hpre : ∀ i, i < k → pollStep (svc.poll i) = none)
    (hpoll : svc.poll k = .resp 200 pbody "COMPLETED" output perr praw) :
    (output.truthy = true →
      (call_gemini_deep_research svc prompt).1 = .success output ∧
      (call_gemini_deep_research svc prompt).2.length = k + 1) ∧
    (output.truthy = false →
      (call_gemini_deep_research svc prompt).1 =
        .failure ("Research completed but no output found. Full response: " ++ praw) ∧
      ∀ p, (call_gemini_deep_research svc prompt).1 ≠ .success p) := by
  rw [run_polls svc prompt body raw ident hkey hstart hident]
  have hpre' : ∀ i, i < k → pollStep (svc.poll (0 + i)) = none := by
    intro i hi
    rw [Nat.zero_add]
    exact hpre i hi
  constructor
  · intro ht
    have hstep : pollStep (svc.poll (0 + k)) = some (.success output) := by
      rw [Nat.zero_add, hpoll]
      simp [pollStep, ht]
    exact pollLoop_stops svc (.success output) k maxAttempts 0 0 hk hpre' hstep
  · intro hf
    have hstep : pollStep (svc.poll (0 + k)) = some
        (.failure ("Research completed but no output found. Full response: " ++ praw)) := by
      rw [Nat.zero_add, hpoll]
      simp [pollStep, hf]
    have h := pollLoop_stops svc
      (.failure ("Research completed but no output found. Full response: " ++ praw))
      k maxAttempts 0 0 hk hpre' hstep
    refine ⟨h.1, fun p => ?_⟩
    rw [h.1]
    simp

/-- A service whose job completes on the first poll with a single truthy
string output. -/
def svcC1W : Service where
  apiKey := some "k"
  start := .resp 200 "" (some "j") ""
  poll := fun _ => .resp 200 "" "COMPLETED" (.str "out") "Unknown error" ""

/-- C1, witness: on a concrete completed run the Success payload is the
whole (truthy) output and exactly one poll was performed. -/
theorem C1_witness :
    (call_gemini_deep_research svcC1W "p").1 = .success (.str "out") ∧
    (call_gemini_deep_research svcC1W "p").2.length = 0 + 1 :=
  (C1_completed svcC1W "p" "" "" "j" "" "Unknown error" "" (.str "out") 0
    rfl rfl (by decide) (by decide)
    (fun i hi => absurd hi (Nat.not_lt_zero i)) rfl).1 rfl

/-! ## Claim C2 -/

/-- C2: when the start succeeds and every poll in the budget reports a
non-terminal status, the run returns Timeout, performs exactly
`maxAttempts = 60` polls at instants `pollInterval * 1, …, pollInterval * 60`
(each spaced `pollInterval = 5` time units apart), and the Timeout message
reports the elapsed budget `60 * 5 = 300` seconds. -/
theorem C2_timeout (svc : Service) (prompt body raw ident : String)
    (hkey : keyMissing svc.apiKey = false)
    (hstart : svc.start = .resp 200 body (some ident) raw)
    (hident : ident ≠ "")
    (hall : ∀ i, i < maxAttempts → pollStep (svc.poll i) = none) :
    call_gemini_deep_research svc prompt =
      (.timeout timeoutMsg,
       (List.range maxAttempts).map (fun i => pollInterval * (i + 1))) ∧
    (call_gemini_deep_research svc prompt).2.length = maxAttempts ∧
    timeoutMsg =
      "Research timed out after 300 seconds. The research may still be processing." := by
  have hrun := run_polls svc prompt body raw ident hkey hstart hident
  have h := pollLoop_exhausts svc maxAttempts 0 0 (fun i hi => by
    rw [Nat.zero_add]
    exact hall i hi)
  have hmap : (List.range maxAttempts).map (fun i => 0 + pollInterval * (i + 1)) =
      (List.range maxAttempts).map (fun i => pollInterval * (i + 1)) := by
    apply List.map_congr_left
    intro a _
    omega
  refine ⟨?_, ?_, by rfl⟩
  · rw [hrun, h, hmap]
  · rw [hrun, h]
    simp

/-- A service that always reports a non-terminal `"RUNNING"` status. -/
def svcC2W : Service where
  apiKey := some "k"
  start := .resp 200 "" (some "j") ""
  poll := fun _ => .resp 200 "" "RUNNING" (.str "") "Unknown error" ""

/-- C2, witness: on a concrete always-running service the run times out after
exactly 60 polls spaced 5 time units apart. -/
theorem C2_witness :
    call_gemini_deep_research svcC2W "p" =
      (.timeout timeoutMsg,
       (List.range maxAttempts).map (fun i => pollInterval * (i + 1))) ∧
    (call_gemini_deep_research svcC2W "p").2.length = maxAttempts ∧
    timeoutMsg =
      "Research timed out after 300 seconds. The research may still be processing." :=
  C2_timeout svcC2W "p" "" "" "j" rfl rfl (by decide) (by decide)

/-! ## Claim C3 -/

/-- C3: the run is total — for every behaviour of the external service the
outcome is one of Success, Failure, Timeout (the embedding has no other
exit), and a missing credential yields the configuration-error Failure
text. -/
theorem C3_total (svc : Service) (prompt : String) :
    (keyMissing svc.apiKey = true →
      (call_gemini_deep_research svc prompt).1 =
        .failure "Error: GEMINI_API_KEY not set in environment variables") ∧
    ((∃ p, (call_gemini_deep_research svc prompt).1 = .success p) ∨
     (∃ r, (call_gemini_deep_research svc prompt).1 = .failure r) ∨
     (∃ m, (call_gemini_deep_research svc prompt).1 = .timeout m)) := by
  constructor
  · intro h
    simp [call_gemini_deep_research, h]
  · cases h : (call_gemini_deep_research svc prompt).1 with
    | success p => exact Or.inl ⟨p, rfl⟩
    | failure r => exact Or.inr (Or.inl ⟨r, rfl⟩)
    | timeout m => exact Or.inr (Or.inr ⟨m, rfl⟩)

/-- A world with no credential and a service that raises on every call. -/
def svcC3W : Service where
  apiKey := none
  start := .exn "boom"
  poll := fun _ => .exn "boom"

/-- C3, witness: with the credential unset the run returns the
configuration-error Failure text. -/
theorem C3_witness :
    (call_gemini_deep_research svcC3W "p").1 =
      .failure "Error: GEMINI_API_KEY not set in environment variables" :=
  (C3_total svcC3W "p").1 rfl

/-! ## Claim C4 -/

/-- C4: transport failures are never retried — a non-2xx start response or a
missing job identifier returns Failure carrying the raw status code/body with
zero polls performed, and a non-2xx or erroring (exception-raising) poll
response ends the run at that poll, after exactly `k + 1` polls. -/
theorem C4_transport :
    (∀ (svc : Service) (prompt body raw : String) (ident : Option String)
       (status : Nat),
      keyMissing svc.apiKey = false →
      svc.start = .resp status body ident raw →
      status ≠ 200 →
      call_gemini_deep_research svc prompt =
        (.failure ("Error starting research: " ++ toString status ++ " - " ++ body),
         [])) ∧
    (∀ (svc : Service) (prompt body raw : String) (ident : Option String),
      keyMissing svc.apiKey = false →
      svc.start = .resp 200 body ident raw →
      identMissing ident = true →
      call_gemini_deep_research svc prompt =
        (.failure ("Error: No interaction ID returned from API. Response: " ++ raw),
         [])) ∧
    (∀ (svc : Service) (prompt body raw ident pbody pstate perr praw : String)
       (poutput : Json) (k status : Nat),
      keyMissing svc.apiKey = false →
      svc.start = .resp 200 body (some ident) raw →
      ident ≠ "" →
      k < maxAttempts →
      (∀ i, i < k → pollStep (svc.poll i) = none) →
      svc.poll k = .resp status pbody pstate poutput perr praw →
      status ≠ 200 →
      (call_gemini_deep_research svc prompt).1 =
        .failure ("Error polling results: " ++ toString status ++ " - " ++ pbody) ∧
      (call_gemini_deep_research svc prompt).2.length = k + 1) ∧
    (∀ (svc : Service) (prompt body raw ident msg : String) (k : Nat),
      keyMissing svc.apiKey = false →
      svc.start = .resp 200 body (some ident) raw →
      ident ≠ "" →
      k < maxAttempts →
      (∀ i, i < k → pollStep (svc.poll i) = none) →
      svc.poll k = .exn msg →
      (call_gemini_deep_research svc prompt).1 =
        .failure ("Error polling Gemini API: " ++ msg) ∧
      (call_gemini_deep_research svc prompt).2.length = k + 1) := by
  refine ⟨?_, ?_, ?_, ?_⟩
  · intro svc prompt body raw ident status hkey hstart hstatus
    simp [call_gemini_deep_research, hkey, hstart, hstatus]
  · intro svc prompt body raw ident hkey hstart hident
    simp [call_gemini_deep_research, hkey, hstart, hident]
  · intro svc prompt body raw ident pbody pstate perr praw poutput k status
      hkey hstart hident hk hpre hpoll hstatus
    rw [run_polls svc prompt body raw ident hkey hstart hident]
    have hstep : pollStep (svc.poll (0 + k)) = some
        (.failure ("Error polling results: " ++ toString status ++ " - " ++ pbody)) := by
      rw [Nat.zero_add, hpoll]
      simp [pollStep, hstatus]
    exact pollLoop_stops svc _ k maxAttempts 0 0 hk
      (fun i hi => by rw [Nat.zero_add]; exact hpre i hi) hstep
  · intro svc prompt body raw ident msg k hkey hstart hident hk hpre hpoll
    rw [run_polls svc prompt body raw ident hkey hstart hident]
    have hstep : pollStep (svc.poll (0 + k)) = some
        (.failure ("Error polling Gemini API: " ++ msg)) := by
      rw [Nat.zero_add, hpoll]
      rfl
    exact pollLoop_stops svc _ k maxAttempts 0 0 hk
      (fun i hi => by rw [Nat.zero_add]; exact hpre i hi) hstep

/-- A service whose start request comes back HTTP 500. -/
def svcC4a : Service where
  apiKey := some "k"
  start := .resp 500 "oops" none ""
  poll := fun _ => .exn "unreachable"

/-- A service whose start response parses but has no `id` field. -/
def svcC4b : Service where
  apiKey := some "k"
  start := .resp 200 "" none "{}"
  poll := fun _ => .exn "unreachable"

/-- A service whose first poll comes back HTTP 503. -/
def svcC4c : Service where
  apiKey := some "k"
  start := .resp 200 "" (some "j") ""
  poll := fun _ => .resp 503 "busy" "" (.str "") "Unknown error" ""

/-- A service whose first poll raises an exception. -/
def svcC4d : Service where
  apiKey := some "k"
  start := .resp 200 "" (some "j") ""
  poll := fun _ => .exn "conn reset"

/-- C4, witness: an HTTP 500 start yields a Failure containing `"500"` with
zero polls; a missing job id yields a Failure with zero polls; an HTTP 503
poll and an exception-raising poll each end the run after exactly one
poll. -/
theorem C4_witness :
    (call_gemini_deep_research svcC4a "p" =
      (.failure ("Error starting research: " ++ toString 500 ++ " - " ++ "oops"),
       [])) ∧
    (call_gemini_deep_research svcC4b "p" =
      (.failure ("Error: No interaction ID returned from API. Response: " ++ "{}"),
       [])) ∧
    ((call_gemini_deep_research svcC4c "p").1 =
      .failure ("Error polling results: " ++ toString 503 ++ " - " ++ "busy") ∧
     (call_gemini_deep_research svcC4c "p").2.length = 0 + 1) ∧
    ((call_gemini_deep_research svcC4d "p").1 =
      .failure ("Error polling Gemini API: " ++ "conn reset") ∧
     (call_gemini_deep_research svcC4d "p").2.length = 0 + 1) :=
  ⟨C4_transport.1 svcC4a "p" "oops" "" none 500 rfl rfl (by decide),
   C4_transport.2.1 svcC4b "p" "" "{}" none rfl rfl rfl,
   C4_transport.2.2.1 svcC4c "p" "" "" "j" "busy" "" "Unknown error" ""
     (.str "") 0 503 rfl rfl (by decide) (by decide)
     (fun i hi => absurd hi (Nat.not_lt_zero i)) rfl (by decide),
   C4_transport.2.2.2 svcC4d "p" "" "" "j" "conn reset" 0 rfl rfl
     (by decide) (by decide) (fun i hi => absurd hi (Nat.not_lt_zero i)) rfl⟩

/-! ## Claim C7 -/

/-- C7: a poll reporting status `"FAILED"` or `"CANCELLED"` ends the run with
a Failure carrying the service-reported error, and after any poll on which
the loop body returns (any terminal observation) exactly `k + 1` polls have
been performed — no poll ever follows a terminal status. -/
theorem C7_terminal :
    (∀ (svc : Service) (prompt body raw ident pbody state perr praw : String)
       (poutput : Json) (k : Nat),
      keyMissing svc.apiKey = false →
      svc.start = .resp 200 body (some ident) raw →
      ident ≠ "" →
      k < maxAttempts →
      (∀ i, i < k → pollStep (svc.poll i) = none) →
      svc.poll k = .resp 200 pbody state poutput perr praw →
      (state = "FAILED" ∨ state = "CANCELLED") →
      (call_gemini_deep_research svc prompt).1 =
        .failure ("Research " ++ state.toLower ++ ": " ++ perr) ∧
      (call_gemini_deep_research svc prompt).2.length = k + 1) ∧
    (∀ (svc : Service) (prompt body raw ident : String) (k : Nat)
       (o : JobOutcome),
      keyMissing svc.apiKey = false →
      svc.start = .resp 200 body (some ident) raw →
      ident ≠ "" →
      k < maxAttempts →
      (∀ i, i < k → pollStep (svc.poll i) = none) →
      pollStep (svc.poll k) = some o →
      (call_gemini_deep_research svc prompt).2.length = k + 1) := by
  constructor
  · intro svc prompt body raw ident pbody state perr praw poutput k
      hkey hstart hident hk hpre hpoll hterm
    rw [run_polls svc prompt body raw ident hkey hstart hident]
    have hstep : pollStep (svc.poll (0 + k)) = some
        (.failure ("Research " ++ state.toLower ++ ": " ++ perr)) := by
      rw [Nat.zero_add, hpoll]
      rcases hterm with h | h <;> subst h <;> rfl
    exact pollLoop_stops svc _ k maxAttempts 0 0 hk
      (fun i hi => by rw [Nat.zero_add]; exact hpre i hi) hstep
  · intro svc prompt body raw ident k o hkey hstart hident hk hpre hstep
    rw [run_polls svc prompt body raw ident hkey hstart hident]
    exact (pollLoop_stops svc o k maxAttempts 0 0 hk
      (fun i hi => by rw [Nat.zero_add]; exact hpre i hi)
      (by rw [Nat.zero_add]; exact hstep)).2

/-- A service that reports `"FAILED"` with a service-supplied error on the
first poll. -/
def svcC7W : Service where
  apiKey := some "k"
  start := .resp 200 "" (some "j") ""
  poll := fun _ => .resp 200 "" "FAILED" (.str "") "quota exceeded" ""

/-- C7, witness: a first poll reporting `"FAILED"` ends a concrete run with
the service-reported error after exactly one poll. -/
theorem C7_witness :
    (call_gemini_deep_research svcC7W "p").1 =
      .failure ("Research " ++ "FAILED".toLower ++ ": " ++ "quota exceeded") ∧
    (call_gemini_deep_research svcC7W "p").2.length = 0 + 1 :=
  C7_terminal.1 svcC7W "p" "" "" "j" "" "FAILED" "quota exceeded" ""
    (.str "") 0 rfl rfl (by decide) (by decide)
    (fun i hi => absurd hi (Nat.not_lt_zero i)) rfl (Or.inl rfl)

/-! ## Claim C5 -/

/-- Lowercasing fixes every whitespace character. -/
theorem ws_toLower (c : Char) (h : c.isWhitespace = true) :
    Char.toLower c = c := by
  have hc : ((c = ' ' ∨ c = '\t') ∨ c = '\r') ∨ c = '\n' := by
    simpa [Char.isWhitespace] using h
  rcases hc with ((h1 | h1) | h1) | h1 <;> subst h1 <;> decide

/-- `dropWhile` is the identity on a list none of whose elements satisfy the
predicate. -/
theorem dropWhile_no_match (p : Char → Bool) :
    ∀ (l : List Char), (∀ c ∈ l, p c = false) → List.dropWhile p l = l
  | [], _ => rfl
  | c :: t, h =>
    List.dropWhile_cons_of_neg (by simp [h c (List.mem_cons_self c t)])

/-- A string whose lowercasing is `"quit"` contains no whitespace, so
stripping it is the identity. -/
theorem pyStrip_of_quit (s : String) (h : pyLower s = "quit") :
    pyStrip s = s := by
  have hmap : s.data.map Char.toLower = "quit".data := by
    have := congrArg String.data h
    simpa [pyLower] using this
  have hnws : ∀ c ∈ s.data, c.isWhitespace = false := by
    intro c hc
    cases hws : c.isWhitespace with
    | false => rfl
    | true =>
      exfalso
      have hmem : Char.toLower c ∈ "quit".data := by
        rw [← hmap]
        exact List.mem_map_of_mem _ hc
      rw [ws_toLower c hws] at hmem
      have hdata : "quit".data = ['q', 'u', 'i', 't'] := rfl
      rw [hdata] at hmem
      have : c = 'q' ∨ c = 'u' ∨ c = 'i' ∨ c = 't' := by simpa using hmem
      rcases this with h1 | h1 | h1 | h1 <;> subst h1 <;> simp_all
  have h1 : List.dropWhile Char.isWhitespace s.data = s.data :=
    dropWhile_no_match _ s.data hnws
  have h2 : List.dropWhile Char.isWhitespace s.data.reverse = s.data.reverse :=
    dropWhile_no_match _ _ (fun c hc => hnws c (List.mem_reverse.mp hc))
  simp only [pyStrip, h1, h2, List.reverse_reverse]

/-- C5: when the user's input line is empty or equals `quit`
case-insensitively, the approval loop returns Aborted immediately and
performs zero further `agent.run` calls — so the gated tool is never
executed. -/
theorem C5_abort (agentRun : String → AgentResult) (fuel : Nat)
    (inp : String) (inputs : List String) (req : ApprovalRequest)
    (rest : List ApprovalRequest) (result : AgentResult)
    (h : inp = "" ∨ pyLower inp = "quit") :
    sessionLoop agentRun (fuel + 1) (inp :: inputs) (req :: rest) result =
      (.aborted, 0) := by
  have habort : approvalStep inp = .abort := by
    rcases h with h | h
    · subst h
      rfl
    · have hs : pyStrip inp = inp := pyStrip_of_quit inp h
      simp only [approvalStep]
      rw [if_pos (Or.inr (by rw [hs]; exact h))]
  simp [sessionLoop, habort]

/-- C5, witness: a concrete session whose pending request is answered with
`"QUIT"` ends Aborted with zero agent calls. -/
theorem C5_witness :
    sessionLoop (fun _ => ⟨[⟨.malformed⟩], "t"⟩) 1 ["QUIT"]
      [⟨.parsed (some "Acme") (some "acme.com")⟩]
      ⟨[⟨.parsed (some "Acme") (some "acme.com")⟩], ""⟩ = (.aborted, 0) :=
  C5_abort (fun _ => ⟨[⟨.malformed⟩], "t"⟩) 0 "QUIT" []
    ⟨.parsed (some "Acme") (some "acme.com")⟩ []
    ⟨[⟨.parsed (some "Acme") (some "acme.com")⟩], ""⟩ (Or.inr (by decide))

/-! ## Claim C6 -/

/-- C6: for a request whose argument payload is unparseable the interception
is total by construction (the bare `except:` catches every exception), the
company name and URL both degrade to the placeholder `"Unknown"`, and the
approval banner is still presented, showing those placeholders. -/
theorem C6_malformed (req : ApprovalRequest) (h : req.args = .malformed) :
    extractCompany req.args = ("Unknown", "Unknown") ∧
    requestBanner req =
      [sepLine,
       "           Deep Research Requested",
       sepLine,
       "Company:     Unknown",
       "Company URL: Unknown",
       sepLine] := by
  obtain ⟨args⟩ := req
  cases h
  exact ⟨rfl, rfl⟩

/-- C6, witness: the concrete malformed payload degrades to `"Unknown"`
placeholders and the banner is still produced. -/
theorem C6_witness :
    extractCompany (ApprovalRequest.mk .malformed).args = ("Unknown", "Unknown") ∧
    requestBanner ⟨.malformed⟩ =
      [sepLine,
       "           Deep Research Requested",
       sepLine,
       "Company:     Unknown",
       "Company URL: Unknown",
       sepLine] :=
  C6_malformed ⟨.malformed⟩ rfl

/-! ## Claim C8 -/

/-- C8: a document-export failure — whether raised while saving the PDF,
while generating the canvas, or while saving the DOCX — is caught at the
call site and the gated tool returns the already-obtained research text with
the error appended, never discarding the payload or re-raising. -/
theorem C8_export_failure :
    (∀ (promptPath tmpl research e : String)
       (bmcGen docxSave : Except String String),
      gemini_deep_research promptPath (some tmpl) research (.error e)
          bmcGen docxSave =
        research ++ "\n\n---\n\n⚠️ Error saving files: " ++ e) ∧
    (∀ (promptPath tmpl research pdfName e : String)
       (docxSave : Except String String),
      gemini_deep_research promptPath (some tmpl) research (.ok pdfName)
          (.error e) docxSave =
        research ++ "\n\n---\n\n⚠️ Error saving files: " ++ e) ∧
    (∀ (promptPath tmpl research pdfName bmc e : String),
      gemini_deep_research promptPath (some tmpl) research (.ok pdfName)
          (.ok bmc) (.error e) =
        research ++ "\n\n---\n\n⚠️ Error saving files: " ++ e) := by
  refine ⟨?_, ?_, ?_⟩ <;> intros <;> rfl

/-! ## Claim C9 -/

/-- C9: `generate_business_model_canvas` is deterministic and idempotent —
it is a pure function of the credential, the backing service's
request-to-response behaviour, and the two text inputs, so a second call
with the same inputs returns the same outcome; and against a deterministic
service answering 200 with a first-candidate text, both calls yield that
same Success payload. -/
theorem C9_idempotent (apiKey : Option String)
    (service : String → GenResponse)
    (companyName researchReport body raw t : String)
    (ps : List Part) (cs : List Candidate)
    (hkey : keyMissing apiKey = false)
    (hresp : service (bmcPrompt companyName researchReport) =
      .resp 200 body ({ parts := { text := some t } :: ps } :: cs) raw) :
    generate_business_model_canvas apiKey service companyName researchReport =
      .text t ∧
    generate_business_model_canvas apiKey service companyName researchReport =
      generate_business_model_canvas apiKey service companyName researchReport := by
  refine ⟨?_, rfl⟩
  simp [generate_business_model_canvas, hkey, hresp]

/-- A deterministic fast-reasoning backend always answering with one
candidate carrying the text `"BMC"`. -/
def svcC9W : String → GenResponse :=
  fun _ => .resp 200 "" [{ parts := [{ text := some "BMC" }] }] ""

/-- C9, witness: two calls against the concrete deterministic backend both
return the Success payload `"BMC"`. -/
theorem C9_witness :
    generate_business_model_canvas (some "k") svcC9W "Acme" "report" =
      .text "BMC" ∧
    generate_business_model_canvas (some "k") svcC9W "Acme" "report" =
      generate_business_model_canvas (some "k") svcC9W "Acme" "report" :=
  C9_idempotent (some "k") svcC9W "Acme" "report" "" "" "BMC" [] [] rfl rfl

/-! ## Claim C10 -/

/-- A fast-reasoning backend answering HTTP 201 (a 2xx status other than
200) with a parseable body whose first candidate's first part has no `text`
field. -/
def svcC10 : String → GenResponse :=
  fun _ => .resp 201 "srv-body" [{ parts := [{ text := none }] }] "raw"

/-- C10, counterexample: a 201 response — a 2xx status — with a first part
lacking `text` does not produce `"No text generated"`; the code compares the
status to 200 exactly and returns the transport-error Failure instead, so
the claim as stated (quantified over all 2xx responses) is false at this
input. -/
theorem C10_counterexample :
    (200 ≤ 201 ∧ 201 < 300) ∧
    generate_business_model_canvas (some "k") svcC10 "n" "r" =
      .failure ("Error calling Gemini 2.5 Pro: " ++ toString 201 ++ " - " ++ "srv-body") ∧
    generate_business_model_canvas (some "k") svcC10 "n" "r" ≠
      .text "No text generated" := by
  decide

/-- C10, amended: for every *200* fast-reasoning response that parses but
whose first candidate's first content part lacks a `text` field, the call
returns the literal placeholder `"No text generated"` as a success-shaped
result; an empty candidate list or an empty first-candidate part list
produces the `"Unexpected response format"` error text; and on the 200 path
those are the only shapes that do — whenever both lists are non-empty the
result is text-shaped. -/
theorem C10_no_text (apiKey : Option String) (service : String → GenResponse)
    (companyName researchReport body raw : String)
    (hkey : keyMissing apiKey = false) :
    (∀ (ps : List Part) (cs : List Candidate),
      service (bmcPrompt companyName researchReport) =
        .resp 200 body ({ parts := { text := none } :: ps } :: cs) raw →
      generate_business_model_canvas apiKey service companyName researchReport =
        .text "No text generated") ∧
    (service (bmcPrompt companyName researchReport) = .resp 200 body [] raw →
      generate_business_model_canvas apiKey service companyName researchReport =
        .failure ("Error: Unexpected response format. Response: " ++ raw)) ∧
    (∀ (cs : List Candidate),
      service (bmcPrompt companyName researchReport) =
        .resp 200 body ({ parts := [] } :: cs) raw →
      generate_business_model_canvas apiKey service companyName researchReport =
        .failure ("Error: Unexpected response format. Response: " ++ raw)) ∧
    (∀ (p : Part) (ps : List Part) (cs : List Candidate),
      service (bmcPrompt companyName researchReport) =
        .resp 200 body ({ parts := p :: ps } :: cs) raw →
      ∃ s, generate_business_model_canvas apiKey service companyName
        researchReport = .text s) := by
  refine ⟨?_, ?_, ?_, ?_⟩
  · intro ps cs hresp
    simp [generate_business_model_canvas, hkey, hresp]
  · intro hresp
    simp [generate_business_model_canvas, hkey, hresp]
  · intro cs hresp
    simp [generate_business_model_canvas, hkey, hresp]
  · intro p ps cs hresp
    exact ⟨p.text.getD "No text generated",
      by simp [generate_business_model_canvas, hkey, hresp]⟩

/-- A fast-reasoning backend answering 200 whose first candidate's first
part has no `text` field. -/
def svcC10W : String → GenResponse :=
  fun _ => .resp 200 "" [{ parts := [{ text := none }] }] "raw"

/-- C10, witness: the concrete 200 response with a text-less first part
yields the placeholder `"No text generated"`. -/
theorem C10_witness :
    generate_business_model_canvas (some "k") svcC10W "n" "r" =
      .text "No text generated" :=
  (C10_no_text (some "k") svcC10W "n" "r" "" "raw" rfl).1 [] [] rfl

end SalesResearch
